import Mathlib

/-!
Verification of the weather microservice (`src/app.py`).

The development shallowly embeds the pure logic of `app.py`:
course-code parsing (`parse_course`), next-meeting resolution
(`get_next_meeting_datetime`), forecast matching and result construction
(`fetch_weather`), and the caching orchestration (`post_weather`).
External effects (HTTP requests, the system clock) are passed in as
explicit parameters: the status codes and payloads the upstream services
would return, and the current date-time.  Python exceptions
(`ValueError` from `strptime`, `NameError` from an unbound variable) are
modelled with an `Except` error channel.
-/

namespace WeatherApp

/-- The characters Python's `str.strip()` removes (ASCII whitespace,
as relevant to course-code text). -/
def pyIsSpace (c : Char) : Bool :=
  c == ' ' || c == '\t' || c == '\n' || c == '\x0d' || c == '\x0b' || c == '\x0c'

/-- Python `str.strip()`: drop leading and trailing whitespace. -/
def pyStrip (l : List Char) : List Char :=
  ((l.dropWhile pyIsSpace).reverse.dropWhile pyIsSpace).reverse

/-- `parse_course` (app.py lines 23–45): strip, uppercase, then match the
regex `([A-Z]+)\s*(\d+)` anchored at the start (`re.match`); trailing
content after the digits is ignored.  Returns the pair `(subject, number)`
on success and `(None, None)` on failure, as the Python tuple does.
Since the character classes `[A-Z]`, `\s` and `\d` are pairwise disjoint,
the greedy maximal-munch reading used here is equivalent to the regex. -/
def parse_course (course_code : String) : Option String × Option String :=
  let s := (pyStrip course_code.data).map Char.toUpper
  let subject := s.takeWhile Char.isUpper
  let rest := (s.dropWhile Char.isUpper).dropWhile pyIsSpace
  let number := rest.takeWhile Char.isDigit
  if subject.isEmpty || number.isEmpty then (none, none)
  else (some (String.mk subject), some (String.mk number))

/-- The weekday symbol-to-index conditional chain of app.py line 60:
`0 if day == 'M' else 1 if day == 'T' else 2 if day == 'W' else
3 if day == 'R' else 4 if day == 'F' else 5 if day == 'S' else 6`. -/
def dayIndex (day : Char) : Nat :=
  if day = 'M' then 0 else if day = 'T' then 1 else if day = 'W' then 2
  else if day = 'R' then 3 else if day = 'F' then 4 else if day = 'S' then 5
  else 6

/-- A string built from a non-empty character list is not the empty string. -/
lemma mk_ne_empty (l : List Char) (h : l.isEmpty = false) : String.mk l ≠ "" := by
  intro hcon
  have hnil : l = [] := congrArg String.data hcon
  rw [hnil] at h
  exact absurd h (by decide)

/-- C7: `parse_course` maps "cs340", "CS 340" and " cs   340 " to
`(CS, 340)`, rejects "340CS" and "hello" with `(None, None)`, and never
returns a partial result: a successful parse has both components
non-empty, and every parse is either a full success or `(None, None)`. -/
theorem claim7_parse_course_shapes :
    parse_course "cs340" = (some "CS", some "340") ∧
    parse_course "CS 340" = (some "CS", some "340") ∧
    parse_course " cs   340 " = (some "CS", some "340") ∧
    parse_course "340CS" = (none, none) ∧
    parse_course "hello" = (none, none) ∧
    (∀ s a b, parse_course s = (some a, some b) → a ≠ "" ∧ b ≠ "") ∧
    (∀ s, parse_course s = (none, none) ∨
      ∃ a b, parse_course s = (some a, some b)) := by
  refine ⟨by decide, by decide, by decide, by decide, by decide, ?_, ?_⟩
  · intro s a b h
    unfold parse_course at h
    dsimp only at h
    split at h
    · simp at h
    · next hc =>
      simp only [Bool.or_eq_true, not_or, Bool.not_eq_true] at hc
      injection h with h1 h2
      injection h1 with h1
      injection h2 with h2
      subst h1; subst h2
      exact ⟨mk_ne_empty _ hc.1, mk_ne_empty _ hc.2⟩
  · intro s
    unfold parse_course
    dsimp only
    split
    · left; rfl
    · right; exact ⟨_, _, rfl⟩

/-- Witness for C7: the both-or-neither invariant applied at the
concrete successful parse of "cs340". -/
theorem claim7_parse_course_shapes_witness :
    ("CS" : String) ≠ "" ∧ ("340" : String) ≠ "" :=
  claim7_parse_course_shapes.2.2.2.2.2.1 "cs340" "CS" "340" (by decide)

/-- C8: the weekday mapping sends M, T, W, R, F, S to 0..5, sends U to 6
(Sunday), and sends every character other than the six enumerated ones —
U included — to 6 via the silent catch-all. -/
theorem claim8_weekday_symbol_mapping :
    dayIndex 'M' = 0 ∧ dayIndex 'T' = 1 ∧ dayIndex 'W' = 2 ∧
    dayIndex 'R' = 3 ∧ dayIndex 'F' = 4 ∧ dayIndex 'S' = 5 ∧
    dayIndex 'U' = 6 ∧
    (∀ c : Char, c ≠ 'M' → c ≠ 'T' → c ≠ 'W' → c ≠ 'R' → c ≠ 'F' → c ≠ 'S' →
      dayIndex c = 6) := by
  refine ⟨rfl, rfl, rfl, rfl, rfl, rfl, rfl, ?_⟩
  intro c h1 h2 h3 h4 h5 h6
  unfold dayIndex
  simp [h1, h2, h3, h4, h5, h6]

/-- Witness for C8: the catch-all clause applied at the concrete
unrecognized symbol 'X'. -/
theorem claim8_weekday_symbol_mapping_witness : dayIndex 'X' = 6 :=
  claim8_weekday_symbol_mapping.2.2.2.2.2.2.2 'X' (by decide) (by decide)
    (by decide) (by decide) (by decide) (by decide)

/-! ## Dates and times

`datetime.date` is modelled by its (year, month, day) fields, with the
proleptic-Gregorian ordinal (`date.toordinal`) and `date.weekday`
(0 = Monday) as in CPython's implementation.  `timedelta(days = n)`
addition is day-by-day calendar succession. -/

structure PDate where
  year : Nat
  month : Nat
  day : Nat
deriving DecidableEq

structure DateTime where
  year : Nat
  month : Nat
  day : Nat
  hour : Nat
  minute : Nat
  second : Nat
deriving DecidableEq

/-- A `datetime.time` as produced by `strptime('%I:%M %p')`: hour and
minute, with seconds and microseconds implicitly zero. -/
structure PTime where
  hour : Nat
  minute : Nat
deriving DecidableEq

def isLeap (y : Nat) : Bool :=
  y % 4 == 0 && (y % 100 != 0 || y % 400 == 0)

def daysInMonth (y m : Nat) : Nat :=
  if m = 2 then (if isLeap y then 29 else 28)
  else if m = 4 || m = 6 || m = 9 || m = 11 then 30
  else 31

def daysBeforeMonth (y m : Nat) : Nat :=
  (List.range (m - 1)).foldl (fun acc i => acc + daysInMonth y (i + 1)) 0

/-- `date.toordinal()`: day 1 is 0001-01-01. -/
def toordinal (d : PDate) : Nat :=
  365 * (d.year - 1) + (d.year - 1) / 4 - (d.year - 1) / 100 + (d.year - 1) / 400
    + daysBeforeMonth d.year d.month + d.day

/-- `date.weekday()`: 0001-01-01 (ordinal 1) was a Monday (0). -/
def pyWeekday (d : PDate) : Nat := (toordinal d + 6) % 7

def succDate (d : PDate) : PDate :=
  if d.day < daysInMonth d.year d.month then ⟨d.year, d.month, d.day + 1⟩
  else if d.month < 12 then ⟨d.year, d.month + 1, 1⟩
  else ⟨d.year + 1, 1, 1⟩

/-- `date + timedelta(days = n)`. -/
def addDays : PDate → Nat → PDate
  | d, 0 => d
  | d, n + 1 => addDays (succDate d) n

/-! ## `datetime.strptime(start_time, '%I:%M %p')`

CPython's `_strptime` builds a regex: `%I ↦ (1[0-2]|0[1-9]|[1-9])`,
`:` literal, `%M ↦ ([0-5]\d|\d)`, a whitespace run in the format
matches one-or-more whitespace characters, and `%p ↦ (am|pm)`
case-insensitively; the whole input must be consumed.  Because each
fragment is followed by a character its own class cannot match, the
committed (non-backtracking) readers below are equivalent to the regex. -/

def digitVal (c : Char) : Nat := c.toNat - 48

def parseHour12 : List Char → Option (Nat × List Char)
  | '1' :: c :: rest =>
    if 48 ≤ c.toNat ∧ c.toNat ≤ 50 then some (10 + digitVal c, rest)
    else some (1, c :: rest)
  | '0' :: c :: rest =>
    if 49 ≤ c.toNat ∧ c.toNat ≤ 57 then some (digitVal c, rest) else none
  | c :: rest =>
    if 49 ≤ c.toNat ∧ c.toNat ≤ 57 then some (digitVal c, rest) else none
  | [] => none

def parseMinute : List Char → Option (Nat × List Char)
  | c1 :: c2 :: rest =>
    if 48 ≤ c1.toNat ∧ c1.toNat ≤ 53 ∧ (48 ≤ c2.toNat ∧ c2.toNat ≤ 57) then
      some (10 * digitVal c1 + digitVal c2, rest)
    else if 48 ≤ c1.toNat ∧ c1.toNat ≤ 57 then some (digitVal c1, c2 :: rest)
    else none
  | [c1] => if 48 ≤ c1.toNat ∧ c1.toNat ≤ 57 then some (digitVal c1, []) else none
  | [] => none

def skipSpaces1 : List Char → Option (List Char)
  | c :: rest => if pyIsSpace c then some (rest.dropWhile pyIsSpace) else none
  | [] => none

/-- The `%p` designator, which must end the input: `some true` for PM. -/
def parseAmPm : List Char → Option Bool
  | [c1, c2] =>
    if c2.toLower = 'm' then
      if c1.toLower = 'a' then some false
      else if c1.toLower = 'p' then some true
      else none
    else none
  | _ => none

def expectChar (c : Char) : List Char → Option (List Char)
  | c1 :: rest => if c1 = c then some rest else none
  | [] => none

/-- `datetime.strptime(s, '%I:%M %p').time()`, including the 12-hour to
24-hour conversion (12 AM → 0, 12 PM → 12); `none` models the
`ValueError` raised on malformed input. -/
def parseTime12 (s : String) : Option PTime :=
  match parseHour12 s.data with
  | none => none
  | some (h, r1) =>
    match expectChar ':' r1 with
    | none => none
    | some r2 =>
      match parseMinute r2 with
      | none => none
      | some (mi, r3) =>
        match skipSpaces1 r3 with
        | none => none
        | some r4 =>
          match parseAmPm r4 with
          | none => none
          | some pm =>
            some ⟨if pm then (if h = 12 then 12 else h + 12)
                  else (if h = 12 then 0 else h), mi⟩

/-- `get_next_meeting_datetime` (app.py lines 47–67).  `datetime.now()`
is the explicit `now` parameter.  The Python `for offset in range(7)`
loop with `break` leaves `offset` at the break value, or at 6 (the last
iterated value) when no weekday ever matches — hence the `none ⇒ 6`
arm.  `datetime.combine` copies the parsed time's zero seconds. -/
def get_next_meeting_datetime (now : DateTime) (start_time days_of_week : String) :
    Option DateTime :=
  let today := pyWeekday ⟨now.year, now.month, now.day⟩
  let meeting_days := days_of_week.data.map dayIndex
  let offset :=
    match (List.range 7).find? (fun o => meeting_days.contains ((today + o) % 7)) with
    | some o => o
    | none => 6
  let d := addDays ⟨now.year, now.month, now.day⟩ offset
  match parseTime12 start_time with
  | none => none
  | some t => some ⟨d.year, d.month, d.day, t.hour, t.minute, 0⟩

lemma dayIndex_lt_seven (c : Char) : dayIndex c < 7 := by
  unfold dayIndex; split_ifs <;> omega

/-- `find?` returns the first element satisfying the predicate:
existence form. -/
lemma find?_first {α : Type} (p : α → Bool) :
    ∀ (l : List α), (∃ x ∈ l, p x = true) →
      ∃ i, ∃ hi : i < l.length, l.find? p = some (l.get ⟨i, hi⟩) ∧
        p (l.get ⟨i, hi⟩) = true ∧
        ∀ j, ∀ hj : j < l.length, j < i → p (l.get ⟨j, hj⟩) = false := by
  intro l
  induction l with
  | nil => rintro ⟨x, hx, _⟩; exact absurd hx (List.not_mem_nil x)
  | cons a l ih =>
    intro hex
    by_cases hpa : p a = true
    · refine ⟨0, by simp, ?_, hpa, ?_⟩
      · simp [List.find?, hpa]
      · intro j hj hj0; omega
    · rw [Bool.not_eq_true] at hpa
      have hex' : ∃ x ∈ l, p x = true := by
        obtain ⟨x, hx, hpx⟩ := hex
        rcases List.mem_cons.mp hx with h | h
        · rw [h] at hpx; rw [hpx] at hpa; exact absurd hpa (by decide)
        · exact ⟨x, h, hpx⟩
      obtain ⟨i, hi, hfind, hp, hmin⟩ := ih hex'
      refine ⟨i + 1, by simpa using Nat.succ_lt_succ hi, ?_, hp, ?_⟩
      · simpa [List.find?, hpa] using hfind
      · intro j hj hji
        cases j with
        | zero => exact hpa
        | succ j' => exact hmin j' (by simpa using Nat.lt_of_succ_lt_succ hj) (by omega)

/-- `find?` returns the first element satisfying the predicate:
uniqueness form. -/
lemma find?_eq_of_first {α : Type} (p : α → Bool) :
    ∀ (l : List α) (i : Nat) (hi : i < l.length),
      p (l.get ⟨i, hi⟩) = true →
      (∀ j, ∀ hj : j < l.length, j < i → p (l.get ⟨j, hj⟩) = false) →
      l.find? p = some (l.get ⟨i, hi⟩) := by
  intro l
  induction l with
  | nil => intro i hi; exact absurd hi (by simp)
  | cons a l ih =>
    intro i hi hp hmin
    cases i with
    | zero => simpa [List.find?] using hp ▸ (by simp [List.find?, hp])
    | succ i' =>
      have hpa : p a = false := hmin 0 (by simp) (by omega)
      have := ih i' (by simpa using Nat.lt_of_succ_lt_succ hi) hp
        (fun j hj hji => hmin (j + 1) (by simpa using Nat.succ_lt_succ hj) (by omega))
      simpa [List.find?, hpa] using this

/-- C1: for a non-empty weekday string, `get_next_meeting_datetime`
selects the smallest offset in 0..6 (today first) whose weekday index is
in the meeting-day set, and the resolved meeting is that offset added to
`now`'s date, combined with the parsed start time.  The statement holds
for every `now`, whatever its time-of-day fields: offset 0 is kept
whenever today's weekday is in the set, with no comparison of the class
start time against `now`'s time. -/
theorem claim1_next_meeting_least_offset (now : DateTime) (st days : String) (t : PTime)
    (hdays : days ≠ "") (ht : parseTime12 st = some t) :
    ∃ offset, offset < 7 ∧
      (pyWeekday ⟨now.year, now.month, now.day⟩ + offset) % 7 ∈ days.data.map dayIndex ∧
      (∀ o, o < offset →
        (pyWeekday ⟨now.year, now.month, now.day⟩ + o) % 7 ∉ days.data.map dayIndex) ∧
      get_next_meeting_datetime now st days =
        some ⟨(addDays ⟨now.year, now.month, now.day⟩ offset).year,
              (addDays ⟨now.year, now.month, now.day⟩ offset).month,
              (addDays ⟨now.year, now.month, now.day⟩ offset).day,
              t.hour, t.minute, 0⟩ := by
  have hdata : days.data ≠ [] := fun h => hdays (congrArg String.mk h)
  obtain ⟨c, cs, hcs⟩ : ∃ c cs, days.data = c :: cs := by
    cases hd : days.data with
    | nil => exact absurd hd hdata
    | cons c cs => exact ⟨c, cs, rfl⟩
  set today := pyWeekday ⟨now.year, now.month, now.day⟩ with htoday
  set md := days.data.map dayIndex with hmd
  have hcmem : dayIndex c ∈ md := by rw [hmd, hcs]; simp
  have hexoff : ∃ x ∈ List.range 7, md.contains ((today + x) % 7) = true := by
    refine ⟨(dayIndex c + 7 - today % 7) % 7, List.mem_range.mpr (Nat.mod_lt _ (by omega)), ?_⟩
    have hle : dayIndex c < 7 := dayIndex_lt_seven c
    have heq : (today + (dayIndex c + 7 - today % 7) % 7) % 7 = dayIndex c := by omega
    rw [heq]
    simpa [List.contains] using List.elem_iff.mpr hcmem
  obtain ⟨i, hi, hfind, hp, hmin⟩ :=
    find?_first (fun o => md.contains ((today + o) % 7)) (List.range 7) hexoff
  rw [List.length_range] at hi
  have hget : ∀ j, ∀ hj : j < (List.range 7).length,
      (List.range 7).get ⟨j, hj⟩ = j := by
    intro j hj; simp [List.get_eq_getElem, List.getElem_range]
  rw [hget i (by simpa using hi)] at hfind hp
  refine ⟨i, hi, ?_, ?_, ?_⟩
  · have := hp
    simpa [List.contains, List.elem_iff] using this
  · intro o ho
    have := hmin o (by simp; omega) ho
    rw [hget o (by simp; omega)] at this
    intro hmem
    have h2 : md.contains ((today + o) % 7) = true := by
      simpa [List.contains] using List.elem_iff.mpr hmem
    rw [h2] at this
    exact absurd this (by decide)
  · unfold get_next_meeting_datetime
    dsimp only
    rw [hfind, ht]

/-- Witness for C1 at concrete inputs: now = Wednesday 2024-01-10 with
meeting days MWF and start time 12:30 PM, where offset 0 is selected. -/
theorem claim1_next_meeting_least_offset_witness :
    ∃ offset, offset < 7 ∧
      (pyWeekday ⟨2024, 1, 10⟩ + offset) % 7 ∈ ("MWF" : String).data.map dayIndex ∧
      (∀ o, o < offset →
        (pyWeekday ⟨2024, 1, 10⟩ + o) % 7 ∉ ("MWF" : String).data.map dayIndex) ∧
      get_next_meeting_datetime ⟨2024, 1, 10, 17, 45, 0⟩ "12:30 PM" "MWF" =
        some ⟨(addDays ⟨2024, 1, 10⟩ offset).year,
              (addDays ⟨2024, 1, 10⟩ offset).month,
              (addDays ⟨2024, 1, 10⟩ offset).day,
              12, 30, 0⟩ :=
  claim1_next_meeting_least_offset ⟨2024, 1, 10, 17, 45, 0⟩ "12:30 PM" "MWF"
    ⟨12, 30⟩ (by decide) (by decide)

/-! ## `strftime` / `strptime` for the fixed formats used by the service

`datetime` fields are zero-padded to their field widths
(`%Y` → 4 digits, the rest → 2); a valid `datetime` always fits
(year ≤ 9999, the other fields < 100). -/

/-- `next_meeting.strftime("%Y-%m-%d %H:%M:%S")` (app.py lines 137, 145–146). -/
def strftimeFull (dt : DateTime) : String :=
  ⟨[Nat.digitChar (dt.year / 1000 % 10), Nat.digitChar (dt.year / 100 % 10),
    Nat.digitChar (dt.year / 10 % 10), Nat.digitChar (dt.year % 10), '-',
    Nat.digitChar (dt.month / 10 % 10), Nat.digitChar (dt.month % 10), '-',
    Nat.digitChar (dt.day / 10 % 10), Nat.digitChar (dt.day % 10), ' ',
    Nat.digitChar (dt.hour / 10 % 10), Nat.digitChar (dt.hour % 10), ':',
    Nat.digitChar (dt.minute / 10 % 10), Nat.digitChar (dt.minute % 10), ':',
    Nat.digitChar (dt.second / 10 % 10), Nat.digitChar (dt.second % 10)]⟩

/-- `next_meeting.strftime('%Y-%m-%d_%H:%M')`, the minute-precision part
of the cache key (app.py line 88). -/
def strftimeKey (dt : DateTime) : String :=
  ⟨[Nat.digitChar (dt.year / 1000 % 10), Nat.digitChar (dt.year / 100 % 10),
    Nat.digitChar (dt.year / 10 % 10), Nat.digitChar (dt.year % 10), '-',
    Nat.digitChar (dt.month / 10 % 10), Nat.digitChar (dt.month % 10), '-',
    Nat.digitChar (dt.day / 10 % 10), Nat.digitChar (dt.day % 10), '_',
    Nat.digitChar (dt.hour / 10 % 10), Nat.digitChar (dt.hour % 10), ':',
    Nat.digitChar (dt.minute / 10 % 10), Nat.digitChar (dt.minute % 10)]⟩

/-- ASCII digit test, `'0' ≤ c ≤ '9'` expressed on code points. -/
def isDigitChar (c : Char) : Bool := 48 ≤ c.toNat && c.toNat ≤ 57

def read2 : List Char → Option (Nat × List Char)
  | c1 :: c2 :: rest =>
    if isDigitChar c1 && isDigitChar c2 then
      some (10 * digitVal c1 + digitVal c2, rest)
    else none
  | _ => none

def read4 : List Char → Option (Nat × List Char)
  | c1 :: c2 :: c3 :: c4 :: rest =>
    if isDigitChar c1 && isDigitChar c2 && isDigitChar c3 && isDigitChar c4 then
      some (1000 * digitVal c1 + 100 * digitVal c2 + 10 * digitVal c3 + digitVal c4, rest)
    else none
  | _ => none

/-- `datetime.strptime(s, '%Y-%m-%d %H:%M:%S')`, specialised to the
zero-padded strings the service itself emits (CPython's regex also
admits unpadded digit groups; those never arise when re-parsing the
service's own output). -/
def strptimeFull (s : String) : Option DateTime :=
  match read4 s.data with
  | none => none
  | some (y, r1) =>
    match expectChar '-' r1 with
    | none => none
    | some r2 =>
      match read2 r2 with
      | none => none
      | some (mo, r3) =>
        match expectChar '-' r3 with
        | none => none
        | some r4 =>
          match read2 r4 with
          | none => none
          | some (d, r5) =>
            match expectChar ' ' r5 with
            | none => none
            | some r6 =>
              match read2 r6 with
              | none => none
              | some (h, r7) =>
                match expectChar ':' r7 with
                | none => none
                | some r8 =>
                  match read2 r8 with
                  | none => none
                  | some (mi, r9) =>
                    match expectChar ':' r9 with
                    | none => none
                    | some r10 =>
                      match read2 r10 with
                      | none => none
                      | some (sec, r11) =>
                        if r11 = [] then some ⟨y, mo, d, h, mi, sec⟩ else none

lemma data_mk (l : List Char) : (String.mk l).data = l := rfl

lemma expectChar_self (c : Char) (rest : List Char) :
    expectChar c (c :: rest) = some rest := by simp [expectChar]

lemma digitChar_isDigitChar (n : Nat) (h : n < 10) :
    isDigitChar (Nat.digitChar n) = true := by
  interval_cases n <;> decide

lemma digitVal_digitChar (n : Nat) (h : n < 10) :
    digitVal (Nat.digitChar n) = n := by
  interval_cases n <;> decide

lemma read2_pad (n : Nat) (rest : List Char) (h : n < 100) :
    read2 (Nat.digitChar (n / 10 % 10) :: Nat.digitChar (n % 10) :: rest) =
      some (n, rest) := by
  unfold read2
  dsimp only
  rw [digitChar_isDigitChar _ (by omega), digitChar_isDigitChar _ (by omega)]
  rw [digitVal_digitChar _ (by omega), digitVal_digitChar _ (by omega)]
  simp only [Bool.and_self, if_true]
  have hv : 10 * (n / 10 % 10) + n % 10 = n := by omega
  rw [hv]

lemma read4_pad (n : Nat) (rest : List Char) (h : n < 10000) :
    read4 (Nat.digitChar (n / 1000 % 10) :: Nat.digitChar (n / 100 % 10) ::
           Nat.digitChar (n / 10 % 10) :: Nat.digitChar (n % 10) :: rest) =
      some (n, rest) := by
  unfold read4
  dsimp only
  rw [digitChar_isDigitChar _ (by omega), digitChar_isDigitChar _ (by omega),
      digitChar_isDigitChar _ (by omega), digitChar_isDigitChar _ (by omega)]
  rw [digitVal_digitChar _ (by omega), digitVal_digitChar _ (by omega),
      digitVal_digitChar _ (by omega), digitVal_digitChar _ (by omega)]
  simp only [Bool.and_self, if_true]
  have hv : 1000 * (n / 1000 % 10) + 100 * (n / 100 % 10) + 10 * (n / 10 % 10) + n % 10 = n := by
    omega
  rw [hv]

/-- Formatting a valid date-time with `'%Y-%m-%d %H:%M:%S'` and parsing
the string back reconstructs the date-time exactly. -/
lemma strptime_strftime (dt : DateTime) (hy : dt.year < 10000) (hmo : dt.month < 100)
    (hd : dt.day < 100) (hh : dt.hour < 100) (hmi : dt.minute < 100)
    (hs : dt.second < 100) :
    strptimeFull (strftimeFull dt) = some dt := by
  unfold strftimeFull strptimeFull
  simp only [data_mk]
  rw [read4_pad dt.year _ hy]
  dsimp only
  rw [expectChar_self]
  dsimp only
  rw [read2_pad dt.month _ hmo]
  dsimp only
  rw [expectChar_self]
  dsimp only
  rw [read2_pad dt.day _ hd]
  dsimp only
  rw [expectChar_self]
  dsimp only
  rw [read2_pad dt.hour _ hh]
  dsimp only
  rw [expectChar_self]
  dsimp only
  rw [read2_pad dt.minute _ hmi]
  dsimp only
  rw [expectChar_self]
  dsimp only
  rw [read2_pad dt.second _ hs]
  dsimp only
  rw [if_pos rfl]

lemma parseHour12_bounds (l : List Char) (h : Nat) (rest : List Char)
    (hp : parseHour12 l = some (h, rest)) : 1 ≤ h ∧ h ≤ 12 := by
  unfold parseHour12 at hp
  split at hp <;> [skip; skip; skip; exact absurd hp (by simp)] <;> split at hp <;>
    first
    | (injection hp with hp1; injection hp1 with hpa hpb; subst hpa;
       (try unfold digitVal); omega)
    | exact absurd hp (by simp)

lemma parseMinute_bounds (l : List Char) (mi : Nat) (rest : List Char)
    (hp : parseMinute l = some (mi, rest)) : mi ≤ 59 := by
  unfold parseMinute at hp
  split at hp
  · split at hp
    · injection hp with hp1; injection hp1 with hpa hpb; subst hpa
      unfold digitVal; omega
    · split at hp
      · injection hp with hp1; injection hp1 with hpa hpb; subst hpa
        unfold digitVal; omega
      · exact absurd hp (by simp)
  · split at hp
    · injection hp with hp1; injection hp1 with hpa hpb; subst hpa
      unfold digitVal; omega
    · exact absurd hp (by simp)
  · exact absurd hp (by simp)

lemma parseTime12_bounds (s : String) (t : PTime) (hp : parseTime12 s = some t) :
    t.hour ≤ 23 ∧ t.minute ≤ 59 := by
  unfold parseTime12 at hp
  split at hp
  · exact absurd hp (by simp)
  · next h r1 heq =>
    split at hp
    · exact absurd hp (by simp)
    · split at hp
      · exact absurd hp (by simp)
      · next mi r3 heqm =>
        split at hp
        · exact absurd hp (by simp)
        · split at hp
          · exact absurd hp (by simp)
          · next pm heqp =>
            injection hp with hp1
            subst hp1
            have hb := parseHour12_bounds _ _ _ heq
            have hmb := parseMinute_bounds _ _ _ heqm
            constructor
            · show (if pm then _ else _) ≤ 23
              split <;> split <;> omega
            · exact hmb

/-! ## Forecast periods and `fetch_weather`

A forecast period's `startTime` is an ISO-8601 date-time with offset;
`datetime.fromisoformat(p['startTime'].replace('Z', '+00:00'))` yields
an aware datetime, modelled as its wall-clock fields plus the UTC offset
in minutes.  Python compares aware datetimes by instant, and
`.replace(minute=0, second=0, microsecond=0)` zeroes the wall-clock
sub-hour fields in the value's own zone. -/

structure AwareDT where
  dt : DateTime
  offMin : Int
deriving DecidableEq

structure Period where
  startTime : AwareDT
  temperature : Int
  shortForecast : String
deriving DecidableEq

/-- Wall-clock seconds of a naive datetime, counted from an hour-aligned
anchor (day 0 at 00:00:00 of the proleptic ordinal scale). -/
def dtWallSec (d : DateTime) : Int :=
  (((((toordinal ⟨d.year, d.month, d.day⟩) * 24 + d.hour) * 60 + d.minute) * 60 + d.second : Nat) : Int)

/-- The instant an aware datetime denotes, in seconds. -/
def instantSec (a : AwareDT) : Int := dtWallSec a.dt - a.offMin * 60

/-- Python `==` on aware datetimes compares instants. -/
def pyDtEq (a b : AwareDT) : Bool := instantSec a == instantSec b

/-- `.replace(minute=0, second=0, microsecond=0)`. -/
def replaceMinSec (a : AwareDT) : AwareDT :=
  ⟨⟨a.dt.year, a.dt.month, a.dt.day, a.dt.hour, 0, 0⟩, a.offMin⟩

def succMinute (dt : DateTime) : DateTime :=
  if dt.minute < 59 then ⟨dt.year, dt.month, dt.day, dt.hour, dt.minute + 1, dt.second⟩
  else if dt.hour < 23 then ⟨dt.year, dt.month, dt.day, dt.hour + 1, 0, dt.second⟩
  else
    let d := succDate ⟨dt.year, dt.month, dt.day⟩
    ⟨d.year, d.month, d.day, 0, 0, dt.second⟩

def predDate (d : PDate) : PDate :=
  if 1 < d.day then ⟨d.year, d.month, d.day - 1⟩
  else if 1 < d.month then ⟨d.year, d.month - 1, daysInMonth d.year (d.month - 1)⟩
  else ⟨d.year - 1, 12, 31⟩

def predMinute (dt : DateTime) : DateTime :=
  if 0 < dt.minute then ⟨dt.year, dt.month, dt.day, dt.hour, dt.minute - 1, dt.second⟩
  else if 0 < dt.hour then ⟨dt.year, dt.month, dt.day, dt.hour - 1, 59, dt.second⟩
  else
    let d := predDate ⟨dt.year, dt.month, dt.day⟩
    ⟨d.year, d.month, d.day, 23, 59, dt.second⟩

def iterate {α : Type} (f : α → α) : Nat → α → α
  | 0, a => a
  | n + 1, a => iterate f n (f a)

def addMinutes (dt : DateTime) (z : Int) : DateTime :=
  if 0 ≤ z then iterate succMinute z.toNat dt else iterate predMinute (-z).toNat dt

/-- `next_meeting.astimezone(timezone.utc)` (app.py line 127): the naive
`next_meeting` is interpreted in the host timezone, a fixed offset of
`localOff` minutes from UTC, and re-expressed with a UTC wall clock. -/
def astimezoneUtc (next_meeting : DateTime) (localOff : Int) : AwareDT :=
  ⟨addMinutes next_meeting (-localOff), 0⟩

/-- The loop condition of app.py line 134: hour-truncated period start
equals hour-truncated UTC target. -/
def matchesTarget (next_meeting : DateTime) (localOff : Int) (p : Period) : Bool :=
  pyDtEq (replaceMinSec p.startTime) (replaceMinSec (astimezoneUtc next_meeting localOff))

/-- A Python-dict value that is an int in the matched branch and the
string `"forecast unavailable"` in the fallback branch. -/
inductive TempVal
  | int (n : Int)
  | str (s : String)
deriving DecidableEq

structure ForecastResult where
  course : String
  nextCourseMeeting : String
  forecastTime : String
  temperature : TempVal
  shortForecast : String
deriving DecidableEq

/-- What `fetch_weather` returns and `post_weather` caches: either the
two-field-free error dict `{"error": msg}` or a full forecast dict. -/
inductive WeatherValue
  | errDict (msg : String)
  | forecast (r : ForecastResult)
deriving DecidableEq

/-- Python exceptions that escape the handler: `NameError` (unbound
`forecast_time` on the empty-period fallback) and `ValueError`
(`strptime` on a malformed start time). -/
inductive PyErr
  | nameErr
  | valueErr
deriving DecidableEq

/-- Rendering of an optional string in an f-string: Python prints `None`. -/
def optStr : Option String → String
  | some s => s
  | none => "None"

/-- app.py lines 129–130: `fetch_weather` re-parses the course from the
ambient request form and renders it as `"{subject} {num}"`. -/
def courseNameOf (form_course : String) : String :=
  optStr (parse_course form_course).1 ++ " " ++ optStr (parse_course form_course).2

/-- `fetch_weather` (app.py lines 105–149).  `pointsStatus` and
`forecastStatus` are the status codes of the grid-point and
hourly-forecast GETs; `periods` is the parsed
`forecast['properties']['periods']`.  The loop scans periods in order,
returning on the first hour-match; when no period matches, the fallback
dict reads the loop variable `forecast_time`, which after a full
non-matching scan holds the last period's parsed start — and is unbound
(`NameError`) when the sequence is empty. -/
def fetch_weather (pointsStatus forecastStatus : Nat) (periods : List Period)
    (next_meeting : DateTime) (localOff : Int) (form_course : String) :
    Except PyErr WeatherValue :=
  if pointsStatus ≠ 200 then
    .ok (.errDict ("Failed to fetch grid point data, status code " ++ toString pointsStatus))
  else if forecastStatus ≠ 200 then
    .ok (.errDict ("Failed to fetch forecast data, status code " ++ toString forecastStatus))
  else
    let course_name := courseNameOf form_course
    match periods.find? (matchesTarget next_meeting localOff) with
    | some period =>
      .ok (.forecast ⟨course_name, strftimeFull next_meeting,
            strftimeFull period.startTime.dt, .int period.temperature, period.shortForecast⟩)
    | none =>
      match periods.getLast? with
      | some lastp =>
        .ok (.forecast ⟨course_name, strftimeFull next_meeting,
              strftimeFull lastp.startTime.dt, .str "forecast unavailable",
              "forecast unavailable"⟩)
      | none => .error .nameErr

/-! ## The cache and `post_weather` -/

/-- `weather_cache`, modelled as an association list in which later
writes shadow earlier ones; `cacheGet`/`cachePut` are dict read and
assignment, observationally as in Python. -/
abbrev Cache := List (String × WeatherValue)

def cacheGet (c : Cache) (k : String) : Option WeatherValue :=
  (c.find? (fun kv => kv.1 == k)).map (fun kv => kv.2)

def cachePut (c : Cache) (k : String) (v : WeatherValue) : Cache := (k, v) :: c

inductive Resp
  | err400 (msg : String)
  | weather (w : WeatherValue)
deriving DecidableEq

structure PostResult where
  resp : Except PyErr Resp
  cache : Cache
  upstreamCalled : Bool
  dirUrl : String

def COURSES_MICROSERVICE_URL : String := "http://127.0.0.1:34000"

/-- The JSON the course directory returns on a 200. -/
structure CourseData where
  course : String
  startTime : String
  daysOfWeek : String
deriving DecidableEq

/-- `post_weather` (app.py lines 69–93).  The request form's course text,
the course-directory response (status and body), the current date-time,
the two upstream status codes, the forecast periods and the cache are
explicit inputs.  Note the parse result is used unchecked: the directory
URL is built even when parsing failed (components render as `None`).
`upstreamCalled` records whether the api.weather.gov GETs were issued. -/
def post_weather (form_course : String) (dirStatus : Nat) (course_data : CourseData)
    (now : DateTime) (pointsStatus forecastStatus : Nat) (periods : List Period)
    (localOff : Int) (cache : Cache) : PostResult :=
  let parsed := parse_course form_course
  let course_url :=
    COURSES_MICROSERVICE_URL ++ "/" ++ optStr parsed.1 ++ "/" ++ optStr parsed.2 ++ "/"
  if dirStatus ≠ 200 then ⟨.ok (.err400 "Course not found"), cache, false, course_url⟩
  else
    match get_next_meeting_datetime now course_data.startTime course_data.daysOfWeek with
    | none => ⟨.error .valueErr, cache, false, course_url⟩
    | some next_meeting =>
      let cache_key := course_data.course ++ "_" ++ strftimeKey next_meeting
      match cacheGet cache cache_key with
      | some w => ⟨.ok (.weather w), cache, false, course_url⟩
      | none =>
        match fetch_weather pointsStatus forecastStatus periods next_meeting localOff form_course with
        | .error e => ⟨.error e, cache, true, course_url⟩
        | .ok w => ⟨.ok (.weather w), cachePut cache cache_key w, true, course_url⟩

lemma getLast?_ne_nil {α : Type} (l : List α) (h : l ≠ []) :
    l.getLast? = some (l.getLast h) := by
  cases l with
  | nil => exact absurd rfl h
  | cons a as => rfl

/-- Behaviour of `fetch_weather` when both upstreams succeed and no
period's truncated hour matches: the result is the fallback dict over
the last period, or the `NameError` on an empty scan. -/
lemma fetch_weather_nomatch (periods : List Period) (nm : DateTime) (off : Int)
    (fc : String) (hno : ∀ p ∈ periods, matchesTarget nm off p = false) :
    fetch_weather 200 200 periods nm off fc =
      match periods.getLast? with
      | some lastp =>
        .ok (.forecast ⟨courseNameOf fc, strftimeFull nm,
              strftimeFull lastp.startTime.dt, .str "forecast unavailable",
              "forecast unavailable"⟩)
      | none => .error .nameErr := by
  have hfind : periods.find? (matchesTarget nm off) = none :=
    List.find?_eq_none.mpr (fun x hx => by rw [hno x hx]; exact Bool.false_ne_true)
  unfold fetch_weather
  rw [if_neg (by omega), if_neg (by omega)]
  dsimp only
  rw [hfind]

/-- C2: with both upstreams succeeding, `fetch_weather` converts the
target meeting time to UTC, hour-truncates it and each period's start
(zeroed minutes, seconds, sub-seconds — `replaceMinSec`), scans in the
given order, and returns the first period whose truncated start equals
the truncated target. -/
theorem claim2_first_hour_match (periods : List Period) (nm : DateTime) (off : Int)
    (fc : String) (i : Nat) (hi : i < periods.length)
    (hmatch : matchesTarget nm off (periods.get ⟨i, hi⟩) = true)
    (hfirst : ∀ j, ∀ hj : j < periods.length, j < i →
      matchesTarget nm off (periods.get ⟨j, hj⟩) = false) :
    (∀ p, matchesTarget nm off p =
      pyDtEq (replaceMinSec p.startTime) (replaceMinSec (astimezoneUtc nm off))) ∧
    fetch_weather 200 200 periods nm off fc =
      .ok (.forecast ⟨courseNameOf fc, strftimeFull nm,
        strftimeFull (periods.get ⟨i, hi⟩).startTime.dt,
        .int (periods.get ⟨i, hi⟩).temperature,
        (periods.get ⟨i, hi⟩).shortForecast⟩) := by
  refine ⟨fun p => rfl, ?_⟩
  have hfind := find?_eq_of_first (matchesTarget nm off) periods i hi hmatch hfirst
  unfold fetch_weather
  rw [if_neg (by omega), if_neg (by omega)]
  dsimp only
  rw [hfind]

def sampleNM : DateTime := ⟨2024, 1, 10, 15, 0, 0⟩

def samplePeriod (h : Nat) (n : Int) : Period := ⟨⟨⟨2024, 1, 10, h, 0, 0⟩, 0⟩, n, "Sunny"⟩

def samplePeriods : List Period :=
  [samplePeriod 14 1, samplePeriod 15 2, samplePeriod 16 3]

/-- Witness for C2: a 15:00Z target against periods starting 14:00Z,
15:00Z, 16:00Z selects the middle (index 1) period. -/
theorem claim2_first_hour_match_witness :
    (∀ p, matchesTarget sampleNM 0 p =
      pyDtEq (replaceMinSec p.startTime) (replaceMinSec (astimezoneUtc sampleNM 0))) ∧
    fetch_weather 200 200 samplePeriods sampleNM 0 "cs340" =
      .ok (.forecast ⟨courseNameOf "cs340", strftimeFull sampleNM,
        strftimeFull (samplePeriods.get ⟨1, by decide⟩).startTime.dt,
        .int (samplePeriods.get ⟨1, by decide⟩).temperature,
        (samplePeriods.get ⟨1, by decide⟩).shortForecast⟩) :=
  claim2_first_hour_match samplePeriods sampleNM 0 "cs340" 1 (by decide) (by decide)
    (fun j hj hji => by
      interval_cases j
      exact (by decide : matchesTarget sampleNM 0 (samplePeriod 14 1) = false))

/-- C4 counterexample: with both upstreams succeeding and an empty
period sequence, no period matches the target hour, yet the lookup does
not return a sentinel-valued result — it raises `NameError`. -/
theorem claim4_counterexample :
    fetch_weather 200 200 [] sampleNM 0 "cs340" = .error .nameErr := rfl

/-- C4 (amended): when no forecast period matches the target hour *and
the scanned sequence is non-empty*, the lookup does not fail: it returns
a result whose temperature and short-forecast fields are the sentinel
`"forecast unavailable"`, with course and next-meeting-time fields still
populated and `forecastTime` the last-seen forecast time. -/
theorem claim4_nomatch_sentinel (periods : List Period) (nm : DateTime) (off : Int)
    (fc : String) (hne : periods ≠ [])
    (hno : ∀ p ∈ periods, matchesTarget nm off p = false) :
    fetch_weather 200 200 periods nm off fc =
      .ok (.forecast ⟨courseNameOf fc, strftimeFull nm,
        strftimeFull (periods.getLast hne).startTime.dt,
        .str "forecast unavailable", "forecast unavailable"⟩) := by
  rw [fetch_weather_nomatch periods nm off fc hno, getLast?_ne_nil periods hne]

/-- Witness for C4 (amended) at a concrete non-matching singleton scan. -/
theorem claim4_nomatch_sentinel_witness :
    fetch_weather 200 200 [samplePeriod 3 1] sampleNM 0 "cs340" =
      .ok (.forecast ⟨courseNameOf "cs340", strftimeFull sampleNM,
        strftimeFull (([samplePeriod 3 1].getLast (by decide)).startTime.dt),
        .str "forecast unavailable", "forecast unavailable"⟩) :=
  claim4_nomatch_sentinel [samplePeriod 3 1] sampleNM 0 "cs340" (by decide) (by decide)

/-- C5: under a fully non-matching scan, the fallback branch is
well-defined exactly for non-empty period sequences — its
`forecastTime` is the final period's parsed start — and the `NameError`
branch of the embedding is reached exactly when the sequence is empty. -/
theorem claim5_fallback_definedness (periods : List Period) (nm : DateTime) (off : Int)
    (fc : String) (hno : ∀ p ∈ periods, matchesTarget nm off p = false) :
    (fetch_weather 200 200 periods nm off fc = .error .nameErr ↔ periods = []) ∧
    (∀ hne : periods ≠ [],
      fetch_weather 200 200 periods nm off fc =
        .ok (.forecast ⟨courseNameOf fc, strftimeFull nm,
          strftimeFull (periods.getLast hne).startTime.dt,
          .str "forecast unavailable", "forecast unavailable"⟩)) := by
  have hb := fetch_weather_nomatch periods nm off fc hno
  constructor
  · rw [hb]
    cases hp : periods with
    | nil => simp
    | cons a as =>
      rw [getLast?_ne_nil (a :: as) (by simp)]
      simp
  · intro hne
    rw [hb, getLast?_ne_nil periods hne]

/-- Witness for C5 at a concrete non-matching singleton scan. -/
theorem claim5_fallback_definedness_witness :
    (fetch_weather 200 200 [samplePeriod 4 1] sampleNM 0 "cs340" = .error .nameErr ↔
      [samplePeriod 4 1] = []) ∧
    (∀ hne : [samplePeriod 4 1] ≠ [],
      fetch_weather 200 200 [samplePeriod 4 1] sampleNM 0 "cs340" =
        .ok (.forecast ⟨courseNameOf "cs340", strftimeFull sampleNM,
          strftimeFull (([samplePeriod 4 1].getLast hne).startTime.dt),
          .str "forecast unavailable", "forecast unavailable"⟩)) :=
  claim5_fallback_definedness [samplePeriod 4 1] sampleNM 0 "cs340" (by decide)

def cexCD : CourseData := ⟨"X 1", "12:30 PM", "MWF"⟩

def cexNow : DateTime := ⟨2024, 1, 10, 9, 0, 0⟩

/-- C3 counterexample: on the unparseable input "hello" (with the
directory answering 404 for the nonsense path), `post_weather` proceeds
to the course-directory request — with both URL components rendered as
`None` — and reports "Course not found", never "invalid course code". -/
theorem claim3_counterexample :
    parse_course "hello" = (none, none) ∧
    (post_weather "hello" 404 cexCD cexNow 200 200 [] 0 []).dirUrl =
      COURSES_MICROSERVICE_URL ++ "/None/None/" ∧
    (post_weather "hello" 404 cexCD cexNow 200 200 [] 0 []).resp =
      .ok (.err400 "Course not found") :=
  ⟨rfl, rfl, rfl⟩

/-- C3 (amended): a failed course-code parse does not short-circuit the
lookup.  `post_weather` always proceeds to the course-directory request,
with the unparsed components rendered as the string `None`, and reports
the generic "Course not found" error precisely when that request returns
non-200; no "invalid course code" error exists. -/
theorem claim3_parse_failure_proceeds (fc : String) (hfail : parse_course fc = (none, none))
    (dirStatus : Nat) (cd : CourseData) (now : DateTime) (ps fs : Nat)
    (periods : List Period) (off : Int) (c : Cache) :
    (post_weather fc dirStatus cd now ps fs periods off c).dirUrl =
      COURSES_MICROSERVICE_URL ++ "/None/None/" ∧
    (dirStatus ≠ 200 →
      (post_weather fc dirStatus cd now ps fs periods off c).resp =
        .ok (.err400 "Course not found")) := by
  unfold post_weather
  dsimp only
  rw [hfail]
  constructor
  · split
    · rfl
    · split
      · rfl
      · split
        · rfl
        · split <;> rfl
  · intro hds
    rw [if_pos hds]

/-- Witness for C3 (amended) at the concrete failing input "340CS". -/
theorem claim3_parse_failure_proceeds_witness :
    (post_weather "340CS" 404 cexCD cexNow 200 200 [] 0 []).dirUrl =
      COURSES_MICROSERVICE_URL ++ "/None/None/" ∧
    (post_weather "340CS" 404 cexCD cexNow 200 200 [] 0 []).resp =
      .ok (.err400 "Course not found") :=
  ⟨(claim3_parse_failure_proceeds "340CS" (by decide) 404 cexCD cexNow 200 200 [] 0 []).1,
   (claim3_parse_failure_proceeds "340CS" (by decide) 404 cexCD cexNow 200 200 [] 0 []).2
     (by decide)⟩

lemma cacheGet_put_self (c : Cache) (k : String) (v : WeatherValue) :
    cacheGet (cachePut c k v) k = some v := by
  unfold cacheGet cachePut
  simp [List.find?]

/-- A `post_weather` call whose meeting key is already cached returns
the cached value, leaves the cache unchanged and issues no upstream
calls. -/
lemma post_weather_hit (fc : String) (cd : CourseData) (now : DateTime)
    (ps fs : Nat) (per : List Period) (off : Int) (c : Cache) (nm : DateTime)
    (w : WeatherValue)
    (h : get_next_meeting_datetime now cd.startTime cd.daysOfWeek = some nm)
    (hhit : cacheGet c (cd.course ++ "_" ++ strftimeKey nm) = some w) :
    post_weather fc 200 cd now ps fs per off c =
      ⟨.ok (.weather w), c, false,
        COURSES_MICROSERVICE_URL ++ "/" ++ optStr (parse_course fc).1 ++ "/" ++
          optStr (parse_course fc).2 ++ "/"⟩ := by
  unfold post_weather
  dsimp only
  rw [if_neg (by omega), h]
  dsimp only
  rw [hhit]

/-- A `post_weather` call that misses the cache and whose fetch returns
a dict stores that dict under the meeting key. -/
lemma post_weather_miss (fc : String) (cd : CourseData) (now : DateTime)
    (ps fs : Nat) (per : List Period) (off : Int) (c : Cache) (nm : DateTime)
    (w : WeatherValue)
    (h : get_next_meeting_datetime now cd.startTime cd.daysOfWeek = some nm)
    (hmiss : cacheGet c (cd.course ++ "_" ++ strftimeKey nm) = none)
    (hfw : fetch_weather ps fs per nm off fc = .ok w) :
    post_weather fc 200 cd now ps fs per off c =
      ⟨.ok (.weather w), cachePut c (cd.course ++ "_" ++ strftimeKey nm) w, true,
        COURSES_MICROSERVICE_URL ++ "/" ++ optStr (parse_course fc).1 ++ "/" ++
          optStr (parse_course fc).2 ++ "/"⟩ := by
  unfold post_weather
  dsimp only
  rw [if_neg (by omega), h]
  dsimp only
  rw [hmiss, hfw]

/-- A `post_weather` call that misses the cache and whose fetch raises
leaves the cache unchanged and propagates the exception. -/
lemma post_weather_fetch_err (fc : String) (cd : CourseData) (now : DateTime)
    (ps fs : Nat) (per : List Period) (off : Int) (c : Cache) (nm : DateTime)
    (e : PyErr)
    (h : get_next_meeting_datetime now cd.startTime cd.daysOfWeek = some nm)
    (hmiss : cacheGet c (cd.course ++ "_" ++ strftimeKey nm) = none)
    (hfw : fetch_weather ps fs per nm off fc = .error e) :
    post_weather fc 200 cd now ps fs per off c =
      ⟨.error e, c, true,
        COURSES_MICROSERVICE_URL ++ "/" ++ optStr (parse_course fc).1 ++ "/" ++
          optStr (parse_course fc).2 ++ "/"⟩ := by
  unfold post_weather
  dsimp only
  rw [if_neg (by omega), h]
  dsimp only
  rw [hmiss, hfw]

/-- A successful response from `post_weather` (directory 200, meeting
resolved) leaves the response value in the cache under the meeting key,
whether the call was a cache hit or stored a fresh fetch. -/
lemma post_weather_ok_cache (fc : String) (cd : CourseData) (now : DateTime)
    (ps fs : Nat) (per : List Period) (off : Int) (c0 : Cache) (nm : DateTime)
    (w : WeatherValue)
    (h : get_next_meeting_datetime now cd.startTime cd.daysOfWeek = some nm)
    (hr : (post_weather fc 200 cd now ps fs per off c0).resp = .ok (.weather w)) :
    cacheGet (post_weather fc 200 cd now ps fs per off c0).cache
      (cd.course ++ "_" ++ strftimeKey nm) = some w := by
  cases hc : cacheGet c0 (cd.course ++ "_" ++ strftimeKey nm) with
  | some w' =>
    rw [post_weather_hit fc cd now ps fs per off c0 nm w' h hc] at hr ⊢
    dsimp only at hr ⊢
    injection hr with hr1
    injection hr1 with hr2
    rw [hc, hr2]
  | none =>
    cases hf : fetch_weather ps fs per nm off fc with
    | error e =>
      rw [post_weather_fetch_err fc cd now ps fs per off c0 nm e h hc hf] at hr
      dsimp only at hr
      exact absurd hr (fun hx => Except.noConfusion hx)
    | ok w' =>
      rw [post_weather_miss fc cd now ps fs per off c0 nm w' h hc hf] at hr ⊢
      dsimp only at hr ⊢
      injection hr with hr1
      injection hr1 with hr2
      rw [hr2]
      exact cacheGet_put_self c0 _ w

lemma strftimeKey_minute_eq (nm1 nm2 : DateTime) (hy : nm2.year = nm1.year)
    (hmo : nm2.month = nm1.month) (hd : nm2.day = nm1.day) (hh : nm2.hour = nm1.hour)
    (hmi : nm2.minute = nm1.minute) : strftimeKey nm2 = strftimeKey nm1 := by
  unfold strftimeKey
  rw [hy, hmo, hd, hh, hmi]

/-- C6: a first `post_weather` call that produced a weather response,
followed by a second call whose resolved course label and next-meeting
date-time agree at minute precision, builds the identical cache key; the
second call returns exactly the first call's value from the cache,
leaves the cache unchanged, and issues no grid-point or forecast
upstream calls. -/
theorem claim6_cache_idempotence (fc1 fc2 : String) (cd1 cd2 : CourseData)
    (now1 now2 : DateTime) (ps1 fs1 ps2 fs2 : Nat) (per1 per2 : List Period)
    (off1 off2 : Int) (c0 : Cache) (nm1 nm2 : DateTime) (w : WeatherValue)
    (h1 : get_next_meeting_datetime now1 cd1.startTime cd1.daysOfWeek = some nm1)
    (h2 : get_next_meeting_datetime now2 cd2.startTime cd2.daysOfWeek = some nm2)
    (hcourse : cd2.course = cd1.course)
    (hy : nm2.year = nm1.year) (hmo : nm2.month = nm1.month) (hd : nm2.day = nm1.day)
    (hh : nm2.hour = nm1.hour) (hmi : nm2.minute = nm1.minute)
    (hr1 : (post_weather fc1 200 cd1 now1 ps1 fs1 per1 off1 c0).resp = .ok (.weather w)) :
    cd2.course ++ "_" ++ strftimeKey nm2 = cd1.course ++ "_" ++ strftimeKey nm1 ∧
    (post_weather fc2 200 cd2 now2 ps2 fs2 per2 off2
        (post_weather fc1 200 cd1 now1 ps1 fs1 per1 off1 c0).cache).resp =
      .ok (.weather w) ∧
    (post_weather fc2 200 cd2 now2 ps2 fs2 per2 off2
        (post_weather fc1 200 cd1 now1 ps1 fs1 per1 off1 c0).cache).cache =
      (post_weather fc1 200 cd1 now1 ps1 fs1 per1 off1 c0).cache ∧
    (post_weather fc2 200 cd2 now2 ps2 fs2 per2 off2
        (post_weather fc1 200 cd1 now1 ps1 fs1 per1 off1 c0).cache).upstreamCalled =
      false := by
  have hkeys : cd2.course ++ "_" ++ strftimeKey nm2 = cd1.course ++ "_" ++ strftimeKey nm1 := by
    rw [hcourse, strftimeKey_minute_eq nm1 nm2 hy hmo hd hh hmi]
  have hstore := post_weather_ok_cache fc1 cd1 now1 ps1 fs1 per1 off1 c0 nm1 w h1 hr1
  have hhit2 : cacheGet (post_weather fc1 200 cd1 now1 ps1 fs1 per1 off1 c0).cache
      (cd2.course ++ "_" ++ strftimeKey nm2) = some w := by rw [hkeys]; exact hstore
  refine ⟨hkeys, ?_, ?_, ?_⟩
  · rw [post_weather_hit fc2 cd2 now2 ps2 fs2 per2 off2 _ nm2 w h2 hhit2]
  · rw [post_weather_hit fc2 cd2 now2 ps2 fs2 per2 off2 _ nm2 w h2 hhit2]
  · rw [post_weather_hit fc2 cd2 now2 ps2 fs2 per2 off2 _ nm2 w h2 hhit2]

def cdSample : CourseData := ⟨"CS 340", "12:30 PM", "MWF"⟩

def nowSample : DateTime := ⟨2024, 1, 10, 9, 0, 0⟩

def nmSample : DateTime := ⟨2024, 1, 10, 12, 30, 0⟩

def wSample : WeatherValue :=
  .forecast ⟨"CS 340", "2024-01-10 12:30:00", "2024-01-10 15:00:00", .int 2, "Sunny"⟩

def c0Sample : Cache := [("CS 340_2024-01-10_12:30", wSample)]

/-- Witness for C6 at concrete inputs: two sequential identical calls,
the second of which is a pure cache hit with no upstream calls. -/
theorem claim6_cache_idempotence_witness :
    cdSample.course ++ "_" ++ strftimeKey nmSample =
      cdSample.course ++ "_" ++ strftimeKey nmSample ∧
    (post_weather "cs340" 200 cdSample nowSample 200 200 [] 0
        (post_weather "cs340" 200 cdSample nowSample 200 200 [] 0 c0Sample).cache).resp =
      .ok (.weather wSample) ∧
    (post_weather "cs340" 200 cdSample nowSample 200 200 [] 0
        (post_weather "cs340" 200 cdSample nowSample 200 200 [] 0 c0Sample).cache).cache =
      (post_weather "cs340" 200 cdSample nowSample 200 200 [] 0 c0Sample).cache ∧
    (post_weather "cs340" 200 cdSample nowSample 200 200 [] 0
        (post_weather "cs340" 200 cdSample nowSample 200 200 [] 0 c0Sample).cache).upstreamCalled =
      false :=
  claim6_cache_idempotence "cs340" "cs340" cdSample cdSample nowSample nowSample
    200 200 200 200 [] [] 0 0 c0Sample nmSample nmSample wSample
    rfl rfl rfl rfl rfl rfl rfl rfl rfl

/-- C10: when the grid-point or hourly-forecast upstream call fails, the
resulting error object — an error message only, with no course,
meeting-time, temperature or short-forecast fields — is itself stored in
the cache under the meeting key, and a subsequent call resolving to the
same key returns that cached error without issuing the upstream calls
again. -/
theorem claim10_upstream_error_cached (fc1 fc2 : String) (cd1 cd2 : CourseData)
    (now1 now2 : DateTime) (ps1 fs1 ps2 fs2 : Nat) (per1 per2 : List Period)
    (off1 off2 : Int) (c0 : Cache) (nm1 nm2 : DateTime) (m : String)
    (h1 : get_next_meeting_datetime now1 cd1.startTime cd1.daysOfWeek = some nm1)
    (h2 : get_next_meeting_datetime now2 cd2.startTime cd2.daysOfWeek = some nm2)
    (hcourse : cd2.course = cd1.course)
    (hy : nm2.year = nm1.year) (hmo : nm2.month = nm1.month) (hd : nm2.day = nm1.day)
    (hh : nm2.hour = nm1.hour) (hmi : nm2.minute = nm1.minute)
    (hmiss : cacheGet c0 (cd1.course ++ "_" ++ strftimeKey nm1) = none)
    (hfw : fetch_weather ps1 fs1 per1 nm1 off1 fc1 = .ok (.errDict m)) :
    (post_weather fc1 200 cd1 now1 ps1 fs1 per1 off1 c0).resp =
      .ok (.weather (.errDict m)) ∧
    cacheGet (post_weather fc1 200 cd1 now1 ps1 fs1 per1 off1 c0).cache
      (cd1.course ++ "_" ++ strftimeKey nm1) = some (.errDict m) ∧
    (post_weather fc2 200 cd2 now2 ps2 fs2 per2 off2
        (post_weather fc1 200 cd1 now1 ps1 fs1 per1 off1 c0).cache).resp =
      .ok (.weather (.errDict m)) ∧
    (post_weather fc2 200 cd2 now2 ps2 fs2 per2 off2
        (post_weather fc1 200 cd1 now1 ps1 fs1 per1 off1 c0).cache).upstreamCalled =
      false := by
  have hm1 := post_weather_miss fc1 cd1 now1 ps1 fs1 per1 off1 c0 nm1 (.errDict m) h1 hmiss hfw
  have hkeys : cd2.course ++ "_" ++ strftimeKey nm2 = cd1.course ++ "_" ++ strftimeKey nm1 := by
    rw [hcourse, strftimeKey_minute_eq nm1 nm2 hy hmo hd hh hmi]
  have hstore : cacheGet (post_weather fc1 200 cd1 now1 ps1 fs1 per1 off1 c0).cache
      (cd1.course ++ "_" ++ strftimeKey nm1) = some (.errDict m) := by
    rw [hm1]
    exact cacheGet_put_self c0 _ _
  have hhit2 : cacheGet (post_weather fc1 200 cd1 now1 ps1 fs1 per1 off1 c0).cache
      (cd2.course ++ "_" ++ strftimeKey nm2) = some (.errDict m) := by
    rw [hkeys]; exact hstore
  have hh2 := post_weather_hit fc2 cd2 now2 ps2 fs2 per2 off2 _ nm2 (.errDict m) h2 hhit2
  refine ⟨?_, hstore, ?_, ?_⟩
  · rw [hm1]
  · rw [hh2]
  · rw [hh2]

/-- Witness for C10: a 500 from the grid-point endpoint is cached and
served to the second call without re-contacting the upstreams. -/
theorem claim10_upstream_error_cached_witness :
    (post_weather "cs340" 200 cdSample nowSample 500 200 [] 0 []).resp =
      .ok (.weather (.errDict "Failed to fetch grid point data, status code 500")) ∧
    cacheGet (post_weather "cs340" 200 cdSample nowSample 500 200 [] 0 []).cache
      (cdSample.course ++ "_" ++ strftimeKey nmSample) =
      some (.errDict "Failed to fetch grid point data, status code 500") ∧
    (post_weather "cs340" 200 cdSample nowSample 500 200 [] 0
        (post_weather "cs340" 200 cdSample nowSample 500 200 [] 0 []).cache).resp =
      .ok (.weather (.errDict "Failed to fetch grid point data, status code 500")) ∧
    (post_weather "cs340" 200 cdSample nowSample 500 200 [] 0
        (post_weather "cs340" 200 cdSample nowSample 500 200 [] 0 []).cache).upstreamCalled =
      false :=
  claim10_upstream_error_cached "cs340" "cs340" cdSample cdSample nowSample nowSample
    500 200 500 200 [] [] 0 0 [] nmSample nmSample
    "Failed to fetch grid point data, status code 500"
    rfl rfl rfl rfl rfl rfl rfl rfl rfl rfl

/-- C9: the resolved meeting date-time always has zero seconds, its
`'%Y-%m-%d %H:%M:%S'` rendering re-parses to exactly the same date-time,
and every successfully produced ForecastResult carries that rendering in
`nextCourseMeeting` — so re-parsing it reconstructs the date-time that
keyed the cache. -/
theorem claim9_meeting_roundtrip (now : DateTime) (st days : String) (m : DateTime)
    (hres : get_next_meeting_datetime now st days = some m)
    (hy : m.year < 10000) (hmo : m.month < 100) (hd : m.day < 100) :
    m.second = 0 ∧
    strptimeFull (strftimeFull m) = some m ∧
    (∀ ps fs periods off fc r,
      fetch_weather ps fs periods m off fc = .ok (.forecast r) →
      r.nextCourseMeeting = strftimeFull m ∧
      strptimeFull r.nextCourseMeeting = some m) := by
  obtain ⟨t, hpt, hm⟩ : ∃ t, parseTime12 st = some t ∧
      m = ⟨(addDays ⟨now.year, now.month, now.day⟩
              (match (List.range 7).find? (fun o =>
                  (days.data.map dayIndex).contains
                    ((pyWeekday ⟨now.year, now.month, now.day⟩ + o) % 7)) with
                | some o => o
                | none => 6)).year,
            (addDays ⟨now.year, now.month, now.day⟩
              (match (List.range 7).find? (fun o =>
                  (days.data.map dayIndex).contains
                    ((pyWeekday ⟨now.year, now.month, now.day⟩ + o) % 7)) with
                | some o => o
                | none => 6)).month,
            (addDays ⟨now.year, now.month, now.day⟩
              (match (List.range 7).find? (fun o =>
                  (days.data.map dayIndex).contains
                    ((pyWeekday ⟨now.year, now.month, now.day⟩ + o) % 7)) with
                | some o => o
                | none => 6)).day,
            t.hour, t.minute, 0⟩ := by
    unfold get_next_meeting_datetime at hres
    dsimp only at hres
    cases hpt : parseTime12 st with
    | none => rw [hpt] at hres; exact absurd hres (fun hx => Option.noConfusion hx)
    | some t =>
      rw [hpt] at hres
      dsimp only at hres
      injection hres with hres1
      exact ⟨t, rfl, hres1.symm⟩
  have hbt := parseTime12_bounds st t hpt
  have hsec : m.second = 0 := by rw [hm]
  have hh100 : m.hour < 100 := by rw [hm]; dsimp only; omega
  have hmi100 : m.minute < 100 := by rw [hm]; dsimp only; omega
  have hs100 : m.second < 100 := by rw [hsec]; omega
  have hrt := strptime_strftime m hy hmo hd hh100 hmi100 hs100
  refine ⟨hsec, hrt, ?_⟩
  intro ps fs periods off fc r hfr
  have hnext : r.nextCourseMeeting = strftimeFull m := by
    unfold fetch_weather at hfr
    split at hfr
    · simp at hfr
    · split at hfr
      · simp at hfr
      · dsimp only at hfr
        split at hfr
        · injection hfr with hfr1
          injection hfr1 with hfr2
          rw [← hfr2]
        · split at hfr
          · injection hfr with hfr1
            injection hfr1 with hfr2
            rw [← hfr2]
          · simp at hfr
  exact ⟨hnext, by rw [hnext]; exact hrt⟩

/-- Witness for C9 at the concrete resolved meeting 2024-01-10 12:30:00. -/
theorem claim9_meeting_roundtrip_witness :
    nmSample.second = 0 ∧
    strptimeFull (strftimeFull nmSample) = some nmSample ∧
    (∀ ps fs periods off fc r,
      fetch_weather ps fs periods nmSample off fc = .ok (.forecast r) →
      r.nextCourseMeeting = strftimeFull nmSample ∧
      strptimeFull r.nextCourseMeeting = some nmSample) :=
  claim9_meeting_roundtrip nowSample "12:30 PM" "MWF" nmSample rfl
    (by decide) (by decide) (by decide)

end WeatherApp
